import Mathlib

/-!
# Verification of the RyderSerial protocol engine

Shallow embedding of `src/ryder-serial.ts`: the `{IDLE, SENDING, READING}`
protocol state machine, the command queue (the "train"), the advisory lock
layer, the watchdog timer discipline and the byte-level frame decoder, with
theorems settling the specification claims C1-C10.

Modelling conventions:

* JS strings carrying byte data are modelled as `List Nat` of UTF-16 code
  units; `String.fromCharCode` truncates its argument modulo `2 ^ 16`.
* Each queued `TrainEntry` carries a `pid` identifying the promise pair
  created by `send`.  Invocations of the entry's resolver or rejecter are
  recorded as events in an append-only log, so "exactly one completion handle
  fires" becomes a statement about how many events mention a given `pid`.
* `setTimeout`/`clearTimeout` on the single watchdog slot
  (`this[watchdog_symbol]`) are modelled by a count `wdCount` of currently
  armed timers plus a flag `wdSlot` recording whether the handle stored in
  the slot is still armed.  `clearTimeout` can only disarm the stored handle,
  so arming without first clearing would orphan a timer and let the count
  exceed one; the model keeps that possibility so that the `wdCount ≤ 1`
  invariant is a genuine property of the code paths.
* `this.serial` is `Option Bool`: `none` when no port object exists,
  `some b` when one exists and `isOpen = b`.  Actual port I/O
  (`serial.write`) has no observable effect inside the engine and is not
  modelled; `serial.write` throwing is outside the model.
* `lock()` executes `this[lock_symbol].push(Promise.resolve); return
  Promise.resolve();`.  The pushed handle is the *static function*
  `Promise.resolve`: invoking it creates a fresh already-resolved promise and
  settles no existing waiter.  The promise returned to the caller is
  `Promise.resolve()`, i.e. already settled at the moment of return.  The
  model therefore records, per `lock()` call, the settledness of the waiter
  it returned (`lockWaiters`), which is `true` at creation and is never
  touched by `unlock`/`clear` (whose handle invocations are no-ops).
-/

namespace RyderSerial

/-- Engine state enum, `const enum State { IDLE, SENDING, READING }`. -/
inductive State
  | IDLE
  | SENDING
  | READING
deriving DecidableEq

/-- One element of `this[train_symbol]`: `[data, resolve, reject,
isEscapedByte, output_buffer]`.  The resolve/reject closures are represented
by the promise identity `pid`; their invocations are logged as events. -/
structure TrainEntry where
  data : List Nat
  pid : Nat
  isEscapedByte : Bool
  output_buffer : List Nat
deriving DecidableEq

/-- Values passed to a resolver: a single response byte (`resolve(data[0])`)
or the collected output buffer (`resolve(this[train_symbol][0][4])`). -/
inductive RVal
  | byte (b : Nat)
  | str (s : List Nat)
deriving DecidableEq

/-- Observable events: completion-handle invocations and emitted
`locked` / `wait_user_confirm` EventEmitter events. -/
inductive Ev
  | resolve (pid : Nat) (v : RVal)
  | reject (pid : Nat) (err : String)
  | locked
  | wait_user_confirm
deriving DecidableEq

/-- The mutable state of a `RyderSerial` instance. -/
structure Rs where
  train : List TrainEntry
  state : State
  /-- length of `this[lock_symbol]` (all stored handles are the no-op
  `Promise.resolve`). -/
  locks : Nat
  /-- settledness of the waiter returned by each `lock()` call so far, in
  call order. -/
  lockWaiters : List Bool
  /-- number of armed watchdog timers. -/
  wdCount : Nat
  /-- whether the handle currently stored in `this[watchdog_symbol]` is an
  armed timer. -/
  wdSlot : Bool
  serial : Option Bool
  reject_on_locked : Bool
  closing : Bool
  nextPid : Nat
deriving DecidableEq

/-- `clearTimeout(this[watchdog_symbol])`: disarms the stored handle if it is
still armed; a handle that already fired or was already cleared is a no-op. -/
def clearWd (s : Rs) : Rs :=
  { s with wdCount := if s.wdSlot then s.wdCount - 1 else s.wdCount, wdSlot := false }

/-- `this[watchdog_symbol] = setTimeout(...)`: arms a fresh timer and stores
its handle, overwriting (and thus orphaning, if still armed) the old one. -/
def setWd (s : Rs) : Rs :=
  { s with wdCount := s.wdCount + 1, wdSlot := true }

/-- `this.serial?.isOpen` coerced to boolean (`undefined` is falsy). -/
def serialIsOpen (s : Rs) : Bool :=
  match s.serial with
  | none => false
  | some b => b

/-- The `response_errors` record (error bytes 246-255). -/
def response_errors (b : Nat) : Option String :=
  if b = 255 then some "RESPONSE_ERROR_UNKNOWN_COMMAND"
  else if b = 254 then some "RESPONSE_ERROR_NOT_INITIALIZED"
  else if b = 253 then some "RESPONSE_ERROR_MEMORY_ERROR"
  else if b = 252 then some "RESPONSE_ERROR_APP_DOMAIN_TOO_LONG"
  else if b = 251 then some "RESPONSE_ERROR_APP_DOMAIN_INVALID"
  else if b = 250 then some "RESPONSE_ERROR_MNEMONIC_TOO_LONG"
  else if b = 249 then some "RESPONSE_ERROR_MNEMONIC_INVALID"
  else if b = 248 then some "RESPONSE_ERROR_GENERATE_MNEMONIC"
  else if b = 247 then some "RESPONSE_ERROR_INPUT_TIMEOUT"
  else if b = 246 then some "RESPONSE_ERROR_NOT_IMPLEMENTED"
  else none

/-- `clear()`: clear the watchdog, reject every queued entry with
`ERROR_CLEARED`, empty the train, return to `IDLE`, invoke every stored lock
handle (each is `Promise.resolve`, settling nothing) and empty the lock
queue. -/
def clear (s : Rs) : Rs × List Ev :=
  ({ clearWd s with train := [], state := State.IDLE, locks := 0 },
    s.train.map fun e => Ev.reject e.pid "ERROR_CLEARED")

/-- `next()`: when `IDLE` with a non-empty train, either fail the head with
`ERROR_DISCONNECTED` (after `clear()`) if the port is not open, or move to
`SENDING`, write the head's data to the port, clear and re-arm the
watchdog. -/
def next (s : Rs) : Rs × List Ev :=
  match s.state, s.train with
  | State.IDLE, e :: _ =>
      if serialIsOpen s then
        (setWd (clearWd { s with state := State.SENDING }), [])
      else
        let r := clear s
        (r.1, r.2 ++ [Ev.reject e.pid "ERROR_DISCONNECTED"])
  | _, _ => (s, [])

/-- The `for`-loop of `serial_data`'s `READING` block, scanning bytes into
the head entry `e` (whose live fields are `isEscapedByte` and
`output_buffer`); `s.train = e :: rest` is the configuration the loop runs
in, `s.state = READING`. -/
def read_loop (s : Rs) (e : TrainEntry) (rest : List TrainEntry) :
    List Nat → Rs × List Ev
  | [] => ({ s with train := e :: rest }, [])
  | b :: bs =>
      if e.isEscapedByte = false then
        if b = 6 then
          read_loop s { e with isEscapedByte := true } rest bs
        else if b = 5 then
          let r := next { s with train := rest, state := State.IDLE }
          (r.1, Ev.resolve e.pid (RVal.str e.output_buffer) :: r.2)
        else
          read_loop s { e with isEscapedByte := false,
                               output_buffer := e.output_buffer ++ [b] } rest bs
      else
        read_loop s { e with isEscapedByte := false,
                             output_buffer := e.output_buffer ++ [b] } rest bs

/-- Outcome of dispatching one response byte `d0` in `SENDING` state with
the rest of the buffer `ds`: either the `serial_data` call finishes with a
final configuration and events, or — corresponding to the source's
`return this.serial_data(data.slice(1))` taken when `data.length > 1` —
scanning restarts on `ds` from configuration `s` with `evs` prefixed to the
restarted call's events. -/
inductive SendRes
  | stop (r : Rs × List Ev)
  | more (s : Rs) (evs : List Ev)

/-- The `SENDING` dispatch of `serial_data` (source lines 170-245), acting
on the head entry `e` (so `s.train = e :: rest`), after the watchdog was
cleared: LOCKED policy, single-byte acknowledgements, `OUTPUT` (switching to
`READING` and scanning the rest of the buffer), `WAIT_USER_CONFIRM`, and the
device-error/unknown-response fallthrough. -/
def sending_step (s : Rs) (e : TrainEntry) (rest : List TrainEntry)
    (d0 : Nat) (ds : List Nat) : SendRes :=
  if d0 = 11 ∧ s.reject_on_locked = true then
    SendRes.stop ({ s with state := State.IDLE },
      (s.train.map fun en => Ev.reject en.pid "ERROR_LOCKED") ++ [Ev.locked])
  else
    let evs0 : List Ev := if d0 = 11 then [Ev.locked] else []
    if d0 = 1 ∨ d0 = 2 ∨ d0 = 3 then
      let s1 := { s with train := rest }
      match ds with
      | [] =>
          let r := next { s1 with state := State.IDLE }
          SendRes.stop (r.1, evs0 ++ Ev.resolve e.pid (RVal.byte d0) :: r.2)
      | _ :: _ =>
          SendRes.more s1 (evs0 ++ [Ev.resolve e.pid (RVal.byte d0)])
    else if d0 = 4 then
      let r := read_loop (setWd { s with state := State.READING }) e rest ds
      SendRes.stop (r.1, evs0 ++ r.2)
    else if d0 = 10 then
      match ds with
      | [] => SendRes.stop (s, evs0 ++ [Ev.wait_user_confirm])
      | _ :: _ => SendRes.more s (evs0 ++ [Ev.wait_user_confirm])
    else
      let err :=
        match response_errors d0 with
        | some nm => nm
        | none => "ERROR_UNKNOWN_RESPONSE"
      let s1 := { s with train := rest, state := State.IDLE }
      match ds with
      | [] =>
          let r := next s1
          SendRes.stop (r.1, evs0 ++ Ev.reject e.pid err :: r.2)
      | _ :: _ => SendRes.more s1 (evs0 ++ [Ev.reject e.pid err])

/-- `serial_data(data)`: the inbound-byte entry point.  Discards data while
`IDLE`; otherwise clears the watchdog, returns if the train is empty, in
`SENDING` dispatches on `data[0]` via `sending_step` (restarting on
`data.slice(1)` when the source does), and in `READING` re-arms the watchdog
and runs the read loop over the buffer.

An empty buffer in `SENDING` makes `data[0]` equal to JS `undefined`, which
matches none of the response constants and therefore falls into the
unknown-response branch, as in the source. -/
def serial_data : Rs → List Nat → Rs × List Ev
  | s0, [] =>
      if s0.state = State.IDLE then (s0, [])
      else
        let s := clearWd s0
        match s.train with
        | [] => (s, [])
        | e :: rest =>
            if s.state = State.SENDING then
              let r := next { s with train := rest, state := State.IDLE }
              (r.1, Ev.reject e.pid "ERROR_UNKNOWN_RESPONSE" :: r.2)
            else
              read_loop (setWd s) e rest []
  | s0, d0 :: ds =>
      if s0.state = State.IDLE then (s0, [])
      else
        let s := clearWd s0
        match s.train with
        | [] => (s, [])
        | e :: rest =>
            if s.state = State.SENDING then
              match sending_step s e rest d0 ds with
              | SendRes.stop r => r
              | SendRes.more s1 evs =>
                  let r := serial_data s1 ds
                  (r.1, evs ++ r.2)
            else
              read_loop (setWd s) e rest (d0 :: ds)

/-- `serial_watchdog()`: the callback of an expired watchdog timer. -/
def serial_watchdog (s : Rs) : Rs × List Ev :=
  match s.train with
  | [] => (s, [])
  | e :: rest =>
      let r := next { s with train := rest, state := State.IDLE }
      (r.1, Ev.reject e.pid "ERROR_WATCHDOG" :: r.2)

/-- `send`'s argument, `data: string | number`. -/
inductive SendData
  | num (n : Nat)
  | str (s : List Nat)
deriving DecidableEq

/-- `String.fromCharCode(n)`: a one-code-unit string, argument taken
modulo `2 ^ 16` (ECMAScript ToUint16). -/
def fromCharCode (n : Nat) : List Nat := [n % 65536]

/-- `send(data, prepend)`: rejects synchronously with `ERROR_DISCONNECTED`
when the port is absent or not open; otherwise converts a numeric argument
via `String.fromCharCode`, queues a fresh entry (prepending on request) and
nudges the engine.  The third component is the returned promise: the `pid`
of the queued entry, or the synchronous rejection. -/
def send (s : Rs) (d : SendData) (prepend : Bool) :
    Rs × List Ev × Except String Nat :=
  if serialIsOpen s then
    let bytes :=
      match d with
      | SendData.num n => fromCharCode n
      | SendData.str bs => bs
    let e : TrainEntry := ⟨bytes, s.nextPid, false, []⟩
    let s1 := { s with nextPid := s.nextPid + 1,
                       train := if prepend then e :: s.train else s.train ++ [e] }
    let r := next s1
    (r.1, r.2, Except.ok e.pid)
  else
    (s, [], Except.error "ERROR_DISCONNECTED")

/-- `lock()`: pushes the no-op handle `Promise.resolve` onto the lock queue
and returns `Promise.resolve()`.  The second component is the settledness of
the returned waiter at the moment of return (`true`: it is created already
resolved). -/
def lock (s : Rs) : Rs × Bool :=
  ({ s with locks := s.locks + 1, lockWaiters := s.lockWaiters ++ [true] }, true)

/-- `unlock()`: if any lock is outstanding, shift the first handle and invoke
it (the handle is `Promise.resolve`, which settles no waiter); otherwise a
no-op. -/
def unlock (s : Rs) : Rs :=
  if s.locks ≠ 0 then { s with locks := s.locks - 1 } else s

/-- `locked()`: `!!this[lock_symbol].length`. -/
def locked (s : Rs) : Bool := s.locks != 0

/-- `close()`: idempotent via `closing`; sets `closing`, runs `clear()`,
closes and drops the port handle. -/
def close (s : Rs) : Rs × List Ev :=
  if s.closing then (s, [])
  else
    let r := clear { s with closing := true }
    ({ r.1 with serial := none }, r.2)

/-- State after the constructor plus a successful port open: empty train,
`IDLE`, empty lock queue, no armed watchdog, open port. -/
def init (rol : Bool) : Rs :=
  { train := [], state := State.IDLE, locks := 0, lockWaiters := [],
    wdCount := 0, wdSlot := false, serial := some true,
    reject_on_locked := rol, closing := false, nextPid := 0 }

/-- External stimuli driving an instance: public API calls, inbound data
buffers and watchdog expiry. -/
inductive Op
  | send (d : SendData) (prepend : Bool)
  | data (bytes : List Nat)
  | wdFire
  | clear
  | close
  | lock
  | unlock

/-- One stimulus.  `wdFire` fires only when a timer is armed: the firing
timer disarms itself (under the watchdog invariant the armed timer is the
stored one) and runs `serial_watchdog`. -/
def step (s : Rs) : Op → Rs × List Ev
  | Op.send d p => let r := send s d p; (r.1, r.2.1)
  | Op.data bs => serial_data s bs
  | Op.wdFire =>
      if 0 < s.wdCount then
        serial_watchdog { s with wdCount := s.wdCount - 1, wdSlot := false }
      else (s, [])
  | Op.clear => clear s
  | Op.close => close s
  | Op.lock => ((lock s).1, [])
  | Op.unlock => (unlock s, [])

/-- Run a sequence of stimuli, concatenating the event logs. -/
def run (s : Rs) : List Op → Rs × List Ev
  | [] => (s, [])
  | op :: ops =>
      let r1 := step s op
      let r2 := run r1.1 ops
      (r2.1, r1.2 ++ r2.2)

/-- Does an event invoke a completion handle of the entry with promise
identity `pid`? -/
def touches (pid : Nat) : Ev → Bool
  | Ev.resolve p _ => p == pid
  | Ev.reject p _ => p == pid
  | _ => false

/-- Number of completion-handle invocations for `pid` in an event log. -/
def completions (pid : Nat) (evs : List Ev) : Nat := evs.countP (touches pid)

/-- Lock-layer stimuli (the interleavings of claim C9; `locked()` is a pure
query and moves no state). -/
inductive LOp
  | lock
  | unlock
deriving DecidableEq

/-- Run a sequence of lock-layer stimuli. -/
def runLock (s : Rs) : List LOp → Rs
  | [] => s
  | LOp.lock :: t => runLock (lock s).1 t
  | LOp.unlock :: t => runLock (unlock s) t

/-- Control bytes of the wire protocol: `{1,2,3,4,5,6,10,11}` and the error
range `{246..255}`. -/
def is_control (b : Nat) : Bool :=
  decide (b = 1 ∨ b = 2 ∨ b = 3 ∨ b = 4 ∨ b = 5 ∨ b = 6 ∨ b = 10 ∨ b = 11 ∨
    (246 ≤ b ∧ b ≤ 255))

/-- Modelled from the spec: the encoder of claim C5, inserting
`ESC_SEQUENCE` (6) before every control byte. -/
def escape_encode : List Nat → List Nat
  | [] => []
  | b :: bs =>
      if is_control b then 6 :: b :: escape_encode bs else b :: escape_encode bs

/-- Watchdog discipline invariant: the number of armed timers matches the
slot flag, so no orphaned timer exists. -/
def WdInv (s : Rs) : Prop := s.wdCount = if s.wdSlot then 1 else 0

/-- The watchdog invariant transported through a `SendRes`. -/
def SendRes.wdInv : SendRes → Prop
  | SendRes.stop r => WdInv r.1
  | SendRes.more s _ => WdInv s

theorem wdInv_clearWd (s : Rs) (h : WdInv s) : WdInv (clearWd s) := by
  unfold WdInv at h ⊢
  unfold clearWd
  cases hs : s.wdSlot <;> simp [hs] at h ⊢ <;> omega

theorem wdCount_clearWd (s : Rs) (h : WdInv s) : (clearWd s).wdCount = 0 := by
  unfold WdInv at h
  unfold clearWd
  cases hs : s.wdSlot <;> simp [hs] at h ⊢ <;> omega

theorem wdInv_setWd_of (s : Rs) (h : s.wdCount = 0) : WdInv (setWd s) := by
  unfold WdInv setWd
  simp [h]

theorem wdInv_clear (s : Rs) (h : WdInv s) : WdInv (clear s).1 := by
  unfold clear
  exact wdInv_clearWd s h

theorem wdInv_next (s : Rs) (h : WdInv s) : WdInv (next s).1 := by
  unfold next
  split
  · split
    · exact wdInv_setWd_of _ (wdCount_clearWd _ h)
    · exact wdInv_clear s h
  · exact h

theorem wdInv_read_loop (s : Rs) (rest : List TrainEntry) (h : WdInv s) :
    ∀ (bs : List Nat) (e : TrainEntry), WdInv (read_loop s e rest bs).1 := by
  intro bs
  induction bs with
  | nil => intro e; exact h
  | cons b bs ih =>
      intro e
      unfold read_loop
      split
      · split
        · exact ih _
        · split
          · exact wdInv_next _ h
          · exact ih _
      · exact ih _

theorem wdInv_sending_step (s : Rs) (e : TrainEntry) (rest : List TrainEntry)
    (d0 : Nat) (ds : List Nat) (h : WdInv s) (hc : s.wdCount = 0) :
    (sending_step s e rest d0 ds).wdInv := by
  unfold sending_step
  dsimp only
  repeat' split
  all_goals
    first
      | exact h
      | exact wdInv_next _ h
      | exact wdInv_read_loop _ _
          (wdInv_setWd_of { s with state := State.READING } hc) _ _

theorem wdInv_serial_data (data : List Nat) :
    ∀ (s : Rs), WdInv s → WdInv (serial_data s data).1 := by
  induction data with
  | nil =>
      intro s h
      simp only [serial_data]
      repeat' split
      all_goals
        first
          | exact h
          | exact wdInv_clearWd _ h
          | exact wdInv_next _ (wdInv_clearWd _ h)
          | exact wdInv_read_loop _ _ (wdInv_setWd_of _ (wdCount_clearWd _ h)) _ _
  | cons d0 ds ih =>
      intro s h
      simp only [serial_data]
      split
      · exact h
      · split
        · exact wdInv_clearWd _ h
        · rename_i e rest heq
          split
          · split
            · rename_i r hstop
              have hstep := wdInv_sending_step (clearWd s) e rest d0 ds
                (wdInv_clearWd _ h) (wdCount_clearWd _ h)
              rw [hstop] at hstep
              exact hstep
            · rename_i s1 evs hmore
              have hstep := wdInv_sending_step (clearWd s) e rest d0 ds
                (wdInv_clearWd _ h) (wdCount_clearWd _ h)
              rw [hmore] at hstep
              exact ih _ hstep
          · exact wdInv_read_loop _ _ (wdInv_setWd_of _ (wdCount_clearWd _ h)) _ _

theorem wdInv_serial_watchdog (s : Rs) (h : WdInv s) : WdInv (serial_watchdog s).1 := by
  unfold serial_watchdog
  split
  · exact h
  · exact wdInv_next _ h

theorem wdInv_send (s : Rs) (d : SendData) (p : Bool) (h : WdInv s) :
    WdInv (send s d p).1 := by
  unfold send
  split
  · exact wdInv_next _ h
  · exact h

theorem wdInv_close (s : Rs) (h : WdInv s) : WdInv (close s).1 := by
  unfold close
  split
  · exact h
  · exact wdInv_clear _ h

theorem wdInv_step (s : Rs) (op : Op) (h : WdInv s) : WdInv (step s op).1 := by
  cases op with
  | send d p => exact wdInv_send s d p h
  | data bs => exact wdInv_serial_data bs s h
  | wdFire =>
      simp only [step]
      split
      · refine wdInv_serial_watchdog _ ?_
        unfold WdInv at h ⊢
        cases hs : s.wdSlot <;> simp [hs] at h ⊢ <;> omega
      · exact h
  | clear => exact wdInv_clear s h
  | close => exact wdInv_close s h
  | lock => exact h
  | unlock =>
      simp only [step]
      show WdInv (unlock s)
      unfold unlock
      split
      · exact h
      · exact h

theorem wdInv_run (ops : List Op) : ∀ s : Rs, WdInv s → WdInv (run s ops).1 := by
  induction ops with
  | nil => intro s h; exact h
  | cons op t ih => intro s h; exact ih _ (wdInv_step s op h)

/-- C3 (amended).  The claim's "at most one armed watchdog timer" part
holds: after any sequence of submissions, inbound buffers, watchdog
expiries, lock operations, `clear()` and `close()` calls, the number of
armed watchdog timers is at most 1.  (The claim's "exactly 1 iff SENDING or
READING" part is refuted by `C3_counterexample`.) -/
theorem C3_watchdog_at_most_one (rol : Bool) (ops : List Op) :
    ((run (init rol) ops).1).wdCount ≤ 1 := by
  have h := wdInv_run ops (init rol) (by unfold WdInv init; simp)
  unfold WdInv at h
  cases hw : ((run (init rol) ops).1).wdSlot <;> simp [hw] at h <;> omega

/-- C3 (counterexample).  The "exactly 1 armed timer iff SENDING or READING"
part of the claim is false on the code, in both directions: after a
`WAIT_USER_CONFIRM` byte (0x0A) the engine remains in `SENDING` with 0 armed
timers (the watchdog was cleared on data arrival and is not re-armed), and
after an `OUTPUT` … `OUTPUT_END` completion with an empty queue the engine
is `IDLE` with 1 timer still armed (the timer armed on entering the
`READING` block is never cleared when `next()` finds the queue empty). -/
theorem C3_counterexample :
    ((run (init false) [Op.send (SendData.str [40]) false, Op.data [10]]).1.state =
        State.SENDING ∧
      (run (init false) [Op.send (SendData.str [40]) false, Op.data [10]]).1.wdCount = 0) ∧
    ((run (init false) [Op.send (SendData.str [30]) false,
        Op.data [4, 170, 5]]).1.state = State.IDLE ∧
      (run (init false) [Op.send (SendData.str [30]) false,
        Op.data [4, 170, 5]]).1.wdCount = 1) := by decide

/-- C1.  FALSE on the code (code bug): with `reject_on_locked = true`, a
LOCKED byte (0x0B) while a command is in flight makes the engine invoke the
rejecter of every queued entry but leave all entries in the queue; a later
`clear()` then invokes each entry's rejecter a second time, so the entry
submitted here has its completion handles invoked twice — the spec requires
exactly one invocation per entry.  (The non-empty train after the LOCKED
buffer, shown in the second conjunct, is the root cause.) -/
theorem C1_locked_reject_all_double_fire :
    completions 0 (run (init true) [Op.send (SendData.str [30]) false,
        Op.data [11], Op.clear]).2 = 2 ∧
    (run (init true) [Op.send (SendData.str [30]) false, Op.data [11]]).1.train ≠ [] := by
  decide

/-- C2 (counterexample).  With `reject_on_locked = false`, a LOCKED byte in
`SENDING` state does NOT leave the head entry untouched in `SENDING`: after
`emit("locked")` the dispatch falls through to the unknown-response branch,
which rejects the head with `ERROR_UNKNOWN_RESPONSE` and moves to `IDLE`. -/
theorem C2_counterexample :
    (run (init false) [Op.send (SendData.str [30]) false, Op.data [11]]).1.state =
        State.IDLE ∧
    (run (init false) [Op.send (SendData.str [30]) false, Op.data [11]]).2 =
      [Ev.locked, Ev.reject 0 "ERROR_UNKNOWN_RESPONSE"] := by decide

/-- C2 (amended).  When a LOCKED byte (0x0B) arrives in `SENDING` state with
`reject_on_locked = false`, the engine emits `locked` exactly once for that
byte, then treats the byte as an unknown response: the head entry is
rejected with `ERROR_UNKNOWN_RESPONSE` and removed, the state becomes
`IDLE`, and the remaining bytes of the buffer are rescanned in `IDLE` state
and therefore discarded (when the LOCKED byte is the last byte of the
buffer, the engine instead advances the queue via `next()`). -/
theorem C2_locked_permissive_amended (s : Rs) (e : TrainEntry)
    (rest : List TrainEntry) (bs : List Nat)
    (h1 : s.state = State.SENDING) (h2 : s.reject_on_locked = false)
    (h3 : s.train = e :: rest) :
    serial_data s (11 :: bs) =
      (let s1 : Rs := { clearWd s with train := rest, state := State.IDLE }
       let r : Rs × List Ev :=
         match bs with
         | [] => next s1
         | _ :: _ => (s1, [])
       (r.1, Ev.locked :: Ev.reject e.pid "ERROR_UNKNOWN_RESPONSE" :: r.2)) := by
  obtain ⟨tr, st, lk, lw, wc, ws, ser, rol, cl, np⟩ := s
  dsimp only at h1 h2 h3
  subst h1
  subst h2
  subst h3
  cases bs with
  | nil =>
      simp [serial_data, sending_step, clearWd, response_errors]
  | cons b bs1 =>
      simp [serial_data, sending_step, clearWd, response_errors]

/-- C2 (witness for the amended theorem): a concrete in-flight command,
`reject_on_locked = false`, buffer `[0x0B, 0x63]` — `locked` fires once, the
head is rejected with `ERROR_UNKNOWN_RESPONSE`, the trailing byte is
discarded. -/
theorem C2_locked_permissive_amended_witness :
    ((run (init false) [Op.send (SendData.str [30]) false]).1.state = State.SENDING ∧
      (run (init false) [Op.send (SendData.str [30]) false]).1.reject_on_locked = false ∧
      (run (init false) [Op.send (SendData.str [30]) false]).1.train =
        [⟨[30], 0, false, []⟩]) ∧
    serial_data (run (init false) [Op.send (SendData.str [30]) false]).1 [11, 99] =
      ({ clearWd (run (init false) [Op.send (SendData.str [30]) false]).1 with
          train := [], state := State.IDLE },
        [Ev.locked, Ev.reject 0 "ERROR_UNKNOWN_RESPONSE"]) :=
  ⟨⟨by decide, by decide, by decide⟩,
    C2_locked_permissive_amended _ ⟨[30], 0, false, []⟩ [] [99]
      (by decide) (by decide) (by decide)⟩

/-- C4.  FALSE on the code (code bug): every `lock()` call returns an
already-resolved waiter — in particular the waiter returned by a second
`lock()` taken before any `unlock()` is already resolved, while `lock()`'s
own documentation promises a promise "that resolves when the lock is
released".  The second conjunct shows the waiter is settled at the moment
`lock()` returns. -/
theorem C4_lock_waiter_resolved_immediately :
    (run (init false) [Op.lock, Op.lock]).1.lockWaiters = [true, true] ∧
    (lock (run (init false) [Op.lock]).1).2 = true := by decide

/-- Decoding an escape-encoded byte string in `READING` mode: the read loop
resolves the head with its accumulated buffer extended by exactly the
original bytes, for any trailing bytes `tl` after the terminating
`OUTPUT_END`. -/
theorem read_loop_escape (s : Rs) (rest : List TrainEntry) (tl : List Nat) :
    ∀ (B : List Nat) (e : TrainEntry), e.isEscapedByte = false →
      read_loop s e rest (escape_encode B ++ 5 :: tl) =
        ((next { s with train := rest, state := State.IDLE }).1,
          Ev.resolve e.pid (RVal.str (e.output_buffer ++ B)) ::
            (next { s with train := rest, state := State.IDLE }).2) := by
  intro B
  induction B with
  | nil =>
      intro e he
      simp [escape_encode, read_loop, he]
  | cons b bs ih =>
      intro e he
      by_cases hc : is_control b = true
      · simp [escape_encode, hc, read_loop, he, ih, List.append_assoc]
      · have hb : ¬(b = 1 ∨ b = 2 ∨ b = 3 ∨ b = 4 ∨ b = 5 ∨ b = 6 ∨ b = 10 ∨ b = 11 ∨
            (246 ≤ b ∧ b ≤ 255)) := by
          simpa [is_control] using hc
        push_neg at hb
        obtain ⟨hb1, hb2, hb3, hb4, hb5, hb6, hb10, hb11, hbe⟩ := hb
        simp [escape_encode, hc, read_loop, he, hb5, hb6, ih, List.append_assoc]

/-- C5.  For every byte string `B`, encoding `B` by inserting `ESC_SEQUENCE`
(0x06) before every control byte, framing the result between `OUTPUT` (0x04)
and `OUTPUT_END` (0x05), and feeding the framed stream to the decoder while
a head entry is in `SENDING` state resolves the head with exactly `B`. -/
theorem C5_escape_roundtrip (s : Rs) (e : TrainEntry) (rest : List TrainEntry)
    (B : List Nat) (h1 : s.state = State.SENDING) (h2 : s.train = e :: rest)
    (h3 : e.isEscapedByte = false) (h4 : e.output_buffer = []) :
    (serial_data s (4 :: (escape_encode B ++ [5]))).2.head? =
      some (Ev.resolve e.pid (RVal.str B)) := by
  obtain ⟨tr, st, lk, lw, wc, ws, ser, rol, cl, np⟩ := s
  dsimp only at h1 h2
  subst h1
  subst h2
  simp [serial_data, sending_step, clearWd, setWd, read_loop_escape, h3, h4]

/-- C5 (witness): the round trip at a concrete in-flight command and
`B = [0xAA, 0x05, 0xFA]` (containing both a control and a non-control
byte). -/
theorem C5_escape_roundtrip_witness :
    ((run (init false) [Op.send (SendData.str [30]) false]).1.state = State.SENDING ∧
      (run (init false) [Op.send (SendData.str [30]) false]).1.train =
        [⟨[30], 0, false, []⟩] ∧
      (⟨[30], 0, false, []⟩ : TrainEntry).isEscapedByte = false ∧
      (⟨[30], 0, false, []⟩ : TrainEntry).output_buffer = []) ∧
    (serial_data (run (init false) [Op.send (SendData.str [30]) false]).1
        (4 :: (escape_encode [170, 5, 250] ++ [5]))).2.head? =
      some (Ev.resolve 0 (RVal.str [170, 5, 250])) :=
  ⟨⟨by decide, by decide, rfl, rfl⟩,
    C5_escape_roundtrip _ ⟨[30], 0, false, []⟩ [] [170, 5, 250]
      (by decide) (by decide) rfl rfl⟩

/-- C6.  Two commands queued (the first in flight), one inbound buffer
`[0x01, 0x02]`: decoding recursively continues through the buffer, the first
command resolves to 1, the second to 2, the engine ends `IDLE` and the queue
is empty — for arbitrary command payloads. -/
theorem C6_pipelined_responses (dA dB : List Nat) :
    (run (init false) [Op.send (SendData.str dA) false,
        Op.send (SendData.str dB) false, Op.data [1, 2]]).1.state = State.IDLE ∧
    (run (init false) [Op.send (SendData.str dA) false,
        Op.send (SendData.str dB) false, Op.data [1, 2]]).1.train = [] ∧
    (run (init false) [Op.send (SendData.str dA) false,
        Op.send (SendData.str dB) false, Op.data [1, 2]]).2 =
      [Ev.resolve 0 (RVal.byte 1), Ev.resolve 1 (RVal.byte 2)] :=
  ⟨rfl, rfl, rfl⟩

/-- C7.  A command in flight, reply `[0x04, 0xAA, 0x06, 0x05, 0xBB, 0x05]`:
the completion resolves with exactly the byte string `[0xAA, 0x05, 0xBB]` —
the 0x06 escape makes the following 0x05 literal and clears the escape flag,
and the final unescaped 0x05 terminates the output. -/
theorem C7_escaped_output :
    (run (init false) [Op.send (SendData.str [30]) false,
        Op.data [4, 170, 6, 5, 187, 5]]).2 =
      [Ev.resolve 0 (RVal.str [170, 5, 187])] := by decide

/-- C8.  If the serial port is absent or not open when `send()` is called,
the returned completion fails synchronously with `ERROR_DISCONNECTED` and
the engine state — including the command queue — is unchanged. -/
theorem C8_send_disconnected (s : Rs) (d : SendData) (p : Bool)
    (h : s.serial = none ∨ s.serial = some false) :
    send s d p = (s, [], Except.error "ERROR_DISCONNECTED") := by
  have hopen : serialIsOpen s = false := by
    rcases h with h | h <;> simp [serialIsOpen, h]
  simp [send, hopen]

/-- C8 (witness): `send` on a state with no port object. -/
theorem C8_send_disconnected_witness :
    (({ init false with serial := none } : Rs).serial = none ∨
      ({ init false with serial := none } : Rs).serial = some false) ∧
    send { init false with serial := none } (SendData.str [2]) false =
      ({ init false with serial := none }, [], Except.error "ERROR_DISCONNECTED") :=
  ⟨Or.inl rfl, C8_send_disconnected _ _ _ (Or.inl rfl)⟩

/-- `unlock` decrements the lock-queue length, saturating at zero (an
`unlock()` with no outstanding lock is a no-op). -/
theorem locks_unlock (s : Rs) : (unlock s).locks = s.locks - 1 := by
  unfold unlock
  split <;> rename_i h
  · simp
  · simp at h
    simp [h]

/-- The lock-queue length after any interleaving of `lock`/`unlock` is the
saturating counter of those operations. -/
theorem locks_runLock (ops : List LOp) :
    ∀ s : Rs, (runLock s ops).locks =
      ops.foldl
        (fun n op => match op with | LOp.lock => n + 1 | LOp.unlock => n - 1)
        s.locks := by
  induction ops with
  | nil => intro s; rfl
  | cons op t ih =>
      intro s
      cases op with
      | lock =>
          simp only [runLock, List.foldl]
          rw [ih]
          rfl
      | unlock =>
          simp only [runLock, List.foldl]
          rw [ih]
          rw [locks_unlock]

/-- C9.  After any interleaving of `lock()` and `unlock()` calls (with
`locked()` a pure query), the lock-queue length equals the number of
`lock()` calls minus the number of effective `unlock()` calls — expressed as
the saturating fold in which an `unlock()` at zero outstanding locks is a
no-op, so the length never goes negative — and `locked()` returns `true`
exactly when at least one lock is outstanding. -/
theorem C9_lock_counting (ops : List LOp) :
    (runLock (init false) ops).locks =
      ops.foldl
        (fun n op => match op with | LOp.lock => n + 1 | LOp.unlock => n - 1) 0 ∧
    locked (runLock (init false) ops) =
      decide (1 ≤ ops.foldl
        (fun n op => match op with | LOp.lock => n + 1 | LOp.unlock => n - 1) 0) := by
  have h := locks_runLock ops (init false)
  rw [show (init false).locks = 0 from rfl] at h
  refine ⟨h, ?_⟩
  unfold locked
  rw [h]
  cases hn : ops.foldl
      (fun n op => match op with | LOp.lock => n + 1 | LOp.unlock => n - 1) 0 with
  | zero => simp
  | succ m => simp

/-- C10.  For every number `n` that is a valid UTF-16 code unit, `send(n,
prepend)` behaves identically to `send(s, prepend)` where `s` is the
one-character string whose char code is `n`: same state, same events, same
returned completion. -/
theorem C10_send_number_as_char (s : Rs) (n : Nat) (p : Bool) (h : n < 65536) :
    send s (SendData.num n) p = send s (SendData.str [n]) p := by
  unfold send
  split
  · simp [fromCharCode, Nat.mod_eq_of_lt h]
  · rfl

/-- C10 (witness): `send(2)` equals `send("\x02")` on a fresh instance. -/
theorem C10_send_number_as_char_witness :
    2 < 65536 ∧
    send (init false) (SendData.num 2) false =
      send (init false) (SendData.str [2]) false :=
  ⟨by decide, C10_send_number_as_char _ _ _ (by decide)⟩

end RyderSerial
